import Mathlib

/-!
# AccessKit SDL example: the Android JNI glue (`android_jni.c`)

A shallow embedding of `src/examples/sdl/android/app/src/main/jni/android_jni.c`.

* The two file-scope globals `g_adapter` and `g_host` are the fields of `State`.
* Every function the glue calls but does not define (host callbacks, JNI
  environment functions, the `accesskit_android_*` C API) is an external call.
  The value an external call returns is chosen by a `World`, an arbitrary
  function of the complete history of external calls made so far and of the
  call itself (function name and argument values).  Each external call is
  appended to `State.log` together with the value it returned.
* External calls do not re-enter the glue: the statics `g_adapter` and `g_host`
  are only written by the functions of this file.
* Pointers and JNI references are natural numbers, `0` being `NULL`.
  A `jfloat` is carried as its bit pattern: the glue never computes with it.
-/

namespace AndroidJni

/-- A C pointer or JNI reference; `0` is `NULL`. -/
abbrev Ptr := Nat

/-- The null pointer. -/
abbrev NULL : Ptr := 0

/-- JNI `jint`. -/
abbrev jint := Int

/-- JNI `jlong`. -/
abbrev jlong := Int

/-- JNI `jfloat`, as its bit pattern. -/
abbrev jfloat := Nat

/-- JNI `jboolean`. -/
abbrev jboolean := Nat

/-- The constant `JNI_FALSE` of `jni.h`. -/
abbrev JNI_FALSE : jboolean := 0

/-- The constant `JNI_TRUE` of `jni.h`. -/
abbrev JNI_TRUE : jboolean := 1

/-- The function pointers the glue hands to the adapter: the two host callbacks
declared at the top of the file and the file's own `pending_update_factory`. -/
inductive Callback where
  | build_initial_tree
  | do_action
  | pending_update_factory
  deriving DecidableEq, Repr

/-- One external call, with the argument values it was given, in the argument
order of the C call. -/
inductive Call where
  | get_window_state
  | get_action_handler_state
  | get_pending_update
  | NewGlobalRef (env obj : Ptr)
  | DeleteGlobalRef (env obj : Ptr)
  | accesskit_android_adapter_new
  | accesskit_android_adapter_free (adapter : Ptr)
  | accesskit_android_adapter_create_accessibility_node_info
      (adapter : Ptr) (cb : Callback) (userdata env host : Ptr) (virtualViewId : jint)
  | accesskit_android_adapter_find_focus
      (adapter : Ptr) (cb : Callback) (userdata env host : Ptr) (focusType : jint)
  | accesskit_android_platform_action_from_java (env : Ptr) (action : jint) (arguments : Ptr)
  | accesskit_android_adapter_perform_action
      (adapter : Ptr) (cb : Callback) (userdata : Ptr) (virtualViewId : jint)
      (platform_action : Ptr)
  | accesskit_android_platform_action_free (platform_action : Ptr)
  | accesskit_android_adapter_update_if_active (adapter : Ptr) (cb : Callback) (userdata : Ptr)
  | accesskit_android_queued_events_raise (events env host : Ptr)
  | accesskit_android_adapter_on_hover_event
      (adapter : Ptr) (cb : Callback) (userdata : Ptr) (action : jint) (x y : jfloat)
  deriving DecidableEq, Repr

/-- An external call together with the value it returned (`0` for a `void` function). -/
abbrev Event := Call × Ptr

/-- The environment of the glue: the value returned by an external call, given
the history of external calls before it. -/
abbrev World := List Event → Call → Ptr

/-- Program state: the two globals of the file, and the history of external calls. -/
structure State where
  g_adapter : Ptr
  g_host : Ptr
  log : List Event
  deriving DecidableEq, Repr

/-- Call an external function that returns a pointer. -/
def call (w : World) (c : Call) (s : State) : Ptr × State :=
  (w s.log c, { s with log := s.log ++ [(c, w s.log c)] })

/-- Call an external function that returns `void`. -/
def callVoid (c : Call) (s : State) : State :=
  { s with log := s.log ++ [(c, 0)] }

/-- The conversion `(jlong)(uintptr_t)p` on a 64-bit target. -/
def toJlong (p : Ptr) : jlong :=
  if p % 2 ^ 64 < 2 ^ 63 then ((p % 2 ^ 64 : Nat) : Int) else ((p % 2 ^ 64 : Nat) : Int) - 2 ^ 64

/-- The static `pending_update_factory`: discards `userdata`, returns `get_pending_update()`. -/
def pending_update_factory (w : World) (_userdata : Ptr) (s : State) : Ptr × State :=
  call w .get_pending_update s

/-- The entry point `Java_dev_accesskit_sdl_1example_AccessKitSDLActivity_nativeCreateAccessKitAdapter`. -/
def nativeCreateAccessKitAdapter (w : World) (_env _cls : Ptr) (s : State) : jlong × State :=
  let (a, s1) := call w .accesskit_android_adapter_new s
  let s2 := { s1 with g_adapter := a }
  (toJlong s2.g_adapter, s2)

/-- The entry point `Java_dev_accesskit_sdl_1example_AccessKitSDLActivity_nativeFreeAccessKitAdapter`. -/
def nativeFreeAccessKitAdapter (env _cls : Ptr) (_adapter : jlong) (s : State) : State :=
  let s1 :=
    if s.g_host ≠ NULL then
      { callVoid (.DeleteGlobalRef env s.g_host) s with g_host := NULL }
    else s
  if s1.g_adapter ≠ NULL then
    { callVoid (.accesskit_android_adapter_free s1.g_adapter) s1 with g_adapter := NULL }
  else s1

/-- The entry point `Java_dev_accesskit_sdl_1example_AccessKitSDLActivity_nativeCreateAccessibilityNodeInfo`. -/
def nativeCreateAccessibilityNodeInfo (w : World) (env _cls : Ptr) (_adapter_ptr : jlong)
    (host : Ptr) (virtualViewId : jint) (s : State) : Ptr × State :=
  let s1 :=
    if s.g_host = NULL ∧ host ≠ NULL then
      let (r, t) := call w (.NewGlobalRef env host) s
      { t with g_host := r }
    else s
  let (window_state, s2) := call w .get_window_state s1
  if window_state = NULL ∨ s2.g_adapter = NULL then
    (NULL, s2)
  else
    call w (.accesskit_android_adapter_create_accessibility_node_info
      s2.g_adapter .build_initial_tree window_state env host virtualViewId) s2

/-- The entry point `Java_dev_accesskit_sdl_1example_AccessKitSDLActivity_nativeFindFocus`. -/
def nativeFindFocus (w : World) (env _cls : Ptr) (_adapter_ptr : jlong)
    (host : Ptr) (focusType : jint) (s : State) : Ptr × State :=
  let (window_state, s1) := call w .get_window_state s
  if window_state = NULL ∨ s1.g_adapter = NULL then
    (NULL, s1)
  else
    call w (.accesskit_android_adapter_find_focus
      s1.g_adapter .build_initial_tree window_state env host focusType) s1

/-- The entry point `Java_dev_accesskit_sdl_1example_AccessKitSDLActivity_nativePerformAction`. -/
def nativePerformAction (w : World) (env _cls : Ptr) (_adapter_ptr : jlong)
    (host : Ptr) (virtualViewId action : jint) (arguments : Ptr) (s : State) :
    jboolean × State :=
  let (action_handler_state, s1) := call w .get_action_handler_state s
  if action_handler_state = NULL ∨ s1.g_adapter = NULL then
    (JNI_FALSE, s1)
  else
    let (platform_action, s2) :=
      call w (.accesskit_android_platform_action_from_java env action arguments) s1
    if platform_action = NULL then
      (JNI_FALSE, s2)
    else
      let (events, s3) :=
        call w (.accesskit_android_adapter_perform_action
          s2.g_adapter .do_action action_handler_state virtualViewId platform_action) s2
      let s4 := callVoid (.accesskit_android_platform_action_free platform_action) s3
      let s5 :=
        if events ≠ NULL then
          callVoid (.accesskit_android_queued_events_raise events env host) s4
        else s4
      (JNI_TRUE, s5)

/-- The entry point `Java_dev_accesskit_sdl_1example_AccessKitSDLActivity_nativeUpdateAccessibility`. -/
def nativeUpdateAccessibility (w : World) (env _cls : Ptr) (_adapter_ptr : jlong)
    (host : Ptr) (s : State) : State :=
  if s.g_adapter = NULL ∨ host = NULL then
    s
  else
    let (events, s1) :=
      call w (.accesskit_android_adapter_update_if_active
        s.g_adapter .pending_update_factory NULL) s
    if events ≠ NULL then
      callVoid (.accesskit_android_queued_events_raise events env host) s1
    else s1

/-- The entry point `Java_dev_accesskit_sdl_1example_AccessKitSDLActivity_nativeOnHoverEvent`. -/
def nativeOnHoverEvent (w : World) (env _cls : Ptr) (_adapter_ptr : jlong)
    (host : Ptr) (action : jint) (x y : jfloat) (s : State) : jboolean × State :=
  let (window_state, s1) := call w .get_window_state s
  if window_state = NULL ∨ s1.g_adapter = NULL then
    (JNI_FALSE, s1)
  else
    let (events, s2) :=
      call w (.accesskit_android_adapter_on_hover_event
        s1.g_adapter .build_initial_tree window_state action x y) s1
    if events ≠ NULL then
      (JNI_TRUE, callVoid (.accesskit_android_queued_events_raise events env host) s2)
    else
      (JNI_FALSE, s2)

/-! ## Observing one call -/

/-- The external calls made between state `s` and the later state `t`, with results. -/
def newEvents (s t : State) : List Event := t.log.drop s.log.length

/-- The external calls made between state `s` and the later state `t`. -/
def newCalls (s t : State) : List Call := (newEvents s t).map Prod.fst

/-- The `accesskit_android_adapter_*` functions of the C API. -/
def Call.isAdapterFn : Call → Bool
  | .accesskit_android_adapter_new => true
  | .accesskit_android_adapter_free _ => true
  | .accesskit_android_adapter_create_accessibility_node_info .. => true
  | .accesskit_android_adapter_find_focus .. => true
  | .accesskit_android_adapter_perform_action .. => true
  | .accesskit_android_adapter_update_if_active .. => true
  | .accesskit_android_adapter_on_hover_event .. => true
  | _ => false

/-- The functions reached through the `JNIEnv` function table. -/
def Call.isJniEnvFn : Call → Bool
  | .NewGlobalRef .. => true
  | .DeleteGlobalRef .. => true
  | _ => false

/-- The conversion of a Java action to a platform action. -/
def Call.isFromJava : Call → Bool
  | .accesskit_android_platform_action_from_java .. => true
  | _ => false

/-- Raising an event batch. -/
def Call.isRaise : Call → Bool
  | .accesskit_android_queued_events_raise .. => true
  | _ => false

/-- The adapter handle given to an `accesskit_android_adapter_*` call that takes one. -/
def Call.adapterArg : Call → Option Ptr
  | .accesskit_android_adapter_free a => some a
  | .accesskit_android_adapter_create_accessibility_node_info a .. => some a
  | .accesskit_android_adapter_find_focus a .. => some a
  | .accesskit_android_adapter_perform_action a .. => some a
  | .accesskit_android_adapter_update_if_active a .. => some a
  | .accesskit_android_adapter_on_hover_event a .. => some a
  | _ => none

/-- The call is `accesskit_android_adapter_free`. -/
def Call.isAdapterFree : Call → Bool
  | .accesskit_android_adapter_free _ => true
  | _ => false

/-- A call whose result is a batch of queued events. -/
def Call.producesBatch : Call → Bool
  | .accesskit_android_adapter_perform_action .. => true
  | .accesskit_android_adapter_update_if_active .. => true
  | .accesskit_android_adapter_on_hover_event .. => true
  | _ => false

/-- The state of `nativeCreateAccessibilityNodeInfo` once its first statement,
the caching of the host reference, has run: used to state what the rest of the
function does. -/
def afterHostCache (w : World) (env host : Ptr) (s : State) : State :=
  if s.g_host = NULL ∧ host ≠ NULL then
    { s with g_host := w s.log (.NewGlobalRef env host),
             log := s.log ++ [(.NewGlobalRef env host, w s.log (.NewGlobalRef env host))] }
  else s

/-- What "every queued event batch of the call is consumed exactly once" says
about one call that ran from state `s` to state `t` with arguments `env` and
`host`.

* For each adapter operation of the call that returned a batch `r`: if `r` is
  non-null the call raises exactly once, and `raise(r, env, host)` is made after
  the operation has returned; if `r` is `NULL` the call raises nothing.
* Whatever the call raises is a non-null batch that an adapter operation of this
  same call returned, raised with this call's `env` and `host`.
* Neither global is written, so the batch is stored nowhere. -/
def ConsumesBatchOnce (env host : Ptr) (s t : State) : Prop :=
  (∀ c r, (c, r) ∈ newEvents s t → c.producesBatch = true →
    (r ≠ NULL →
      (newCalls s t).countP Call.isRaise = 1 ∧
      ∃ before after, newEvents s t = before ++ (c, r) :: after ∧
        (Call.accesskit_android_queued_events_raise r env host, 0) ∈ after) ∧
    (r = NULL → (newCalls s t).countP Call.isRaise = 0)) ∧
  (∀ c ∈ newCalls s t, c.isRaise = true →
    ∃ p r, p.producesBatch = true ∧ (p, r) ∈ newEvents s t ∧ r ≠ NULL ∧
      c = .accesskit_android_queued_events_raise r env host) ∧
  t.g_adapter = s.g_adapter ∧ t.g_host = s.g_host

/-! ## Sequences of entry-point calls -/

/-- One call of an exported entry point by the Java side, with its arguments. -/
inductive Op where
  | createAccessKitAdapter (env cls : Ptr)
  | freeAccessKitAdapter (env cls : Ptr) (adapter : jlong)
  | createAccessibilityNodeInfo (env cls : Ptr) (adapter_ptr : jlong) (host : Ptr)
      (virtualViewId : jint)
  | findFocus (env cls : Ptr) (adapter_ptr : jlong) (host : Ptr) (focusType : jint)
  | performAction (env cls : Ptr) (adapter_ptr : jlong) (host : Ptr)
      (virtualViewId action : jint) (arguments : Ptr)
  | updateAccessibility (env cls : Ptr) (adapter_ptr : jlong) (host : Ptr)
  | onHoverEvent (env cls : Ptr) (adapter_ptr : jlong) (host : Ptr) (action : jint)
      (x y : jfloat)
  deriving DecidableEq, Repr

/-- What an entry point hands back to Java. -/
inductive Ret where
  | void
  | object (p : Ptr)
  | boolean (b : jboolean)
  | long (v : jlong)
  deriving DecidableEq, Repr

/-- The entry point is `nativeCreateAccessKitAdapter`. -/
def Op.isCreateAdapter : Op → Bool
  | .createAccessKitAdapter .. => true
  | _ => false

/-- The result reports nothing: `void`, a `NULL` object or `JNI_FALSE`. -/
def Ret.negative : Ret → Bool
  | .void => true
  | .object p => p == NULL
  | .boolean b => b == JNI_FALSE
  | .long _ => false

/-- Run one entry point. -/
def step (w : World) : Op → State → Ret × State
  | .createAccessKitAdapter env cls, s =>
      let (r, t) := nativeCreateAccessKitAdapter w env cls s
      (.long r, t)
  | .freeAccessKitAdapter env cls adapter, s =>
      (.void, nativeFreeAccessKitAdapter env cls adapter s)
  | .createAccessibilityNodeInfo env cls adapter_ptr host virtualViewId, s =>
      let (r, t) := nativeCreateAccessibilityNodeInfo w env cls adapter_ptr host virtualViewId s
      (.object r, t)
  | .findFocus env cls adapter_ptr host focusType, s =>
      let (r, t) := nativeFindFocus w env cls adapter_ptr host focusType s
      (.object r, t)
  | .performAction env cls adapter_ptr host virtualViewId action arguments, s =>
      let (r, t) :=
        nativePerformAction w env cls adapter_ptr host virtualViewId action arguments s
      (.boolean r, t)
  | .updateAccessibility env cls adapter_ptr host, s =>
      (.void, nativeUpdateAccessibility w env cls adapter_ptr host s)
  | .onHoverEvent env cls adapter_ptr host action x y, s =>
      let (r, t) := nativeOnHoverEvent w env cls adapter_ptr host action x y s
      (.boolean r, t)

/-- Run a sequence of entry points, in order, collecting the results. -/
def run (w : World) : List Op → State → List Ret × State
  | [], s => ([], s)
  | op :: ops, s =>
      let (r, s1) := step w op s
      let (rs, s2) := run w ops s1
      (r :: rs, s2)

/-! ## Example worlds and states -/

/-- A world in which every external call returns a non-null value. -/
def liveWorld : World := fun h _ => h.length + 1

/-- A world in which the host has no window state and no action handler state,
while every other external call returns a non-null value. -/
def noContextWorld : World := fun h c =>
  match c with
  | .get_window_state => 0
  | .get_action_handler_state => 0
  | _ => h.length + 1

/-- A world in which `accesskit_android_adapter_perform_action` returns no batch,
while every other external call returns a non-null value. -/
def noBatchWorld : World := fun h c =>
  match c with
  | .accesskit_android_adapter_perform_action .. => 0
  | _ => h.length + 1

/-- The state at program start: both globals are `NULL`, nothing has been called. -/
def State.init : State := { g_adapter := NULL, g_host := NULL, log := [] }

/-- A state in which an adapter exists (handle `9`) and a host is cached (reference `8`). -/
def State.live : State := { g_adapter := 9, g_host := 8, log := [] }

/-- One call of each entry point other than the two that create and free the adapter. -/
def sampleOps : List Op :=
  [ .createAccessibilityNodeInfo 1 2 3 4 5,
    .findFocus 1 2 3 4 6,
    .performAction 1 2 3 4 5 7 12,
    .updateAccessibility 1 2 3 4,
    .onHoverEvent 1 2 3 4 7 10 11 ]

end AndroidJni

/-! # The adapter's tree store

The glue reaches the adapter's update path only through
`accesskit_android_adapter_update_if_active`; the adapter itself is linked in
from the AccessKit library and is not part of `android_jni.c`.  The definitions
of this section are therefore modelled from the specification (sections 3, 4.1
and 7), not from code.
-/

namespace TreeStore

/-- Modelled from the spec: the stable unique identifier of a node (the node
type is not in the glue). -/
abbrev NodeId := Nat

/-- Modelled from the spec: a node of the accessibility tree (the adapter's node
type is not in the glue): identifier, role, label, a disabled state and
the ordered sequence of child identifiers. -/
structure Node where
  id : NodeId
  role : Nat
  label : String
  disabled : Bool
  children : List NodeId
  deriving DecidableEq, Repr

/-- Modelled from the spec: the tree (the adapter's store is not in the glue):
the mapping from identifier to node, the root identifier and the focused
identifier, which may be absent. -/
structure Tree where
  nodes : List Node
  root : NodeId
  focus : Option NodeId
  deriving DecidableEq, Repr

/-- Modelled from the spec: a tree update (the adapter's update type is not in
the glue): a full replacement snapshot (complete node set and root), or an
incremental patch (added/changed nodes, removed identifiers, optionally a new
focus identifier). -/
inductive TreeUpdate where
  | full (nodes : List Node) (root : NodeId)
  | incremental (changed : List Node) (removed : List NodeId) (focus : Option NodeId)
  deriving DecidableEq, Repr

/-- Modelled from the spec: the error taxonomy of section 7 (the adapter's
error type is not in the glue). -/
inductive Error where
  | InvalidTree
  | NotFound
  | UnsupportedAction
  | Unavailable
  deriving DecidableEq, Repr

/-- Modelled from the spec: one structural/property diff produced by an update
(the adapter's diff type is not in the glue). -/
inductive Diff where
  | replaced (root : NodeId)
  | removed (id : NodeId)
  | added (id : NodeId)
  | changed (id : NodeId)
  | focusMoved (target : NodeId)
  deriving DecidableEq, Repr

/-- Modelled from the spec: the identifiers present in the mapping (the
adapter's store is not in the glue). -/
def Tree.ids (t : Tree) : List NodeId := t.nodes.map (fun n => n.id)

/-- Modelled from the spec: `get(id)` of section 4.1 (the adapter's store is not
in the glue): returns the node or `NotFound`. -/
def Tree.get (t : Tree) (id : NodeId) : Except Error Node :=
  match t.nodes.find? (fun n => n.id == id) with
  | some n => .ok n
  | none => .error .NotFound

/-- Modelled from the spec: `current_focus()` of section 4.1 (the adapter's
store is not in the glue). -/
def Tree.current_focus (t : Tree) : Option NodeId := t.focus

/-- Modelled from the spec: every child reference held by a node of the tree,
in order (the adapter's store is not in the glue). -/
def Tree.childRefs (t : Tree) : List NodeId :=
  t.nodes.foldr (fun n acc => n.children ++ acc) []

/-- Modelled from the spec: the children of the nodes named in `frontier` (the
adapter's store is not in the glue). -/
def Tree.childrenOf (t : Tree) (frontier : List NodeId) : List NodeId :=
  (t.nodes.filter (fun n => frontier.contains n.id)).foldr (fun n acc => n.children ++ acc) []

/-- Modelled from the spec: the identifiers reachable from `frontier` in at most
`depth` parent-to-child steps (the adapter's store is not in the glue). -/
def Tree.reach (t : Tree) : Nat → List NodeId → List NodeId
  | 0, frontier => frontier
  | depth + 1, frontier => frontier ++ t.reach depth (t.childrenOf frontier)

/-- Modelled from the spec: the tree invariant of section 3 (the adapter's check
is not in the glue): each identifier is mapped exactly once, the root is mapped,
no child reference dangles, each node has at most one parent and the root has
none, every mapped node is reachable from the root (so there is no cycle and no
orphaned non-root node), and the focused identifier, if set, is mapped. -/
def Tree.valid (t : Tree) : Bool :=
  decide t.ids.Nodup
    && t.ids.contains t.root
    && t.childRefs.all (fun c => t.ids.contains c)
    && decide t.childRefs.Nodup
    && !t.childRefs.contains t.root
    && t.ids.all (fun i => (t.reach t.nodes.length [t.root]).contains i)
    && (match t.focus with
        | some f => t.ids.contains f
        | none => true)

/-- Modelled from the spec: the removal check of `apply_update` (the adapter's
update path is not in the glue): a removed node is still referenced as a child
by a node that the same patch neither removes nor updates. -/
def removalRejected (t : Tree) (changed : List Node) (removed : List NodeId) : Bool :=
  t.nodes.any (fun p =>
    !removed.contains p.id
      && !(changed.map (fun n => n.id)).contains p.id
      && p.children.any (fun c => removed.contains c))

/-- Modelled from the spec: insert a node, or replace the node that has the
same identifier (the adapter's update path is not in the glue). -/
def upsert (nodes : List Node) (n : Node) : List Node :=
  if (nodes.map (fun m => m.id)).contains n.id then
    nodes.map (fun m => if m.id = n.id then n else m)
  else
    nodes ++ [n]

/-- Modelled from the spec: the diffs of an incremental patch against the
store it is applied to (the adapter's update path is not in the glue). -/
def diffsOf (t : Tree) (changed : List Node) (removed : List NodeId)
    (focus : Option NodeId) : List Diff :=
  ((removed.filter (fun r => t.ids.contains r)).map Diff.removed)
    ++ (changed.filterMap (fun n =>
          match t.get n.id with
          | .ok old => if old = n then none else some (Diff.changed n.id)
          | .error _ => some (Diff.added n.id)))
    ++ (match focus with
        | some f => if t.focus = some f then [] else [Diff.focusMoved f]
        | none => [])

/-- Modelled from the spec: `apply_update(update)` of section 4.1 (the adapter's
update path is not in the glue).  The result is the store after the call and
what the caller is told.  A full update replaces the store wholesale.  An
incremental update applies removals first, then upserts the changed/added
nodes, then updates the focus pointer.  Any invariant violation fails with
`InvalidTree` and the store is left unchanged. -/
def apply_update (t : Tree) : TreeUpdate → Tree × Except Error (List Diff)
  | .full nodes root =>
      let candidate : Tree := { nodes := nodes, root := root, focus := none }
      if candidate.valid then (candidate, .ok [Diff.replaced root])
      else (t, .error .InvalidTree)
  | .incremental changed removed focus =>
      if removalRejected t changed removed then (t, .error .InvalidTree)
      else
        let afterRemovals := t.nodes.filter (fun n => !removed.contains n.id)
        let afterUpserts := changed.foldl upsert afterRemovals
        let candidate : Tree :=
          { nodes := afterUpserts
            root := t.root
            focus := match focus with
              | some f => some f
              | none => t.focus }
        if candidate.valid then (candidate, .ok (diffsOf t changed removed focus))
        else (t, .error .InvalidTree)

/-- The tree of the scenario of section 8: a root with the children `a` (1) and `b` (2). -/
def scenarioTree : Tree :=
  { nodes := [ { id := 0, role := 0, label := "root", disabled := false, children := [1, 2] },
               { id := 1, role := 1, label := "OK", disabled := false, children := [] },
               { id := 2, role := 1, label := "Cancel", disabled := false, children := [] } ]
    root := 0
    focus := none }

end TreeStore

/-! # Theorems about the glue -/

namespace AndroidJni

/-! ## The outcome of each entry point, branch by branch -/

theorem newEvents_append (s t : State) (l : List Event) (h : t.log = s.log ++ l) :
    newEvents s t = l := by
  simp [newEvents, h]

theorem createAdapter_outcome (w : World) (env cls : Ptr) (s : State) :
    nativeCreateAccessKitAdapter w env cls s =
      (toJlong (w s.log .accesskit_android_adapter_new),
        { g_adapter := w s.log .accesskit_android_adapter_new, g_host := s.g_host,
          log := s.log ++ [(.accesskit_android_adapter_new,
            w s.log .accesskit_android_adapter_new)] }) := by
  simp [nativeCreateAccessKitAdapter, call]

theorem free_outcome (env cls : Ptr) (adapter : jlong) (s : State) :
    nativeFreeAccessKitAdapter env cls adapter s =
      { g_adapter := NULL, g_host := NULL,
        log := s.log
          ++ (if s.g_host ≠ NULL then [(Call.DeleteGlobalRef env s.g_host, 0)] else [])
          ++ (if s.g_adapter ≠ NULL then [(Call.accesskit_android_adapter_free s.g_adapter, 0)]
              else []) } := by
  obtain ⟨ga, gh, lg⟩ := s
  by_cases h1 : gh = 0 <;> by_cases h2 : ga = 0 <;>
    simp [nativeFreeAccessKitAdapter, callVoid, h1, h2]

theorem findFocus_unavailable (w : World) (env cls : Ptr) (adapter_ptr : jlong)
    (host : Ptr) (focusType : jint) (s : State)
    (h : w s.log .get_window_state = NULL ∨ s.g_adapter = NULL) :
    nativeFindFocus w env cls adapter_ptr host focusType s =
      (NULL, { s with log := s.log ++ [(.get_window_state, w s.log .get_window_state)] }) := by
  simp [nativeFindFocus, call, h]

theorem findFocus_reached (w : World) (env cls : Ptr) (adapter_ptr : jlong)
    (host : Ptr) (focusType : jint) (s : State) (ws r : Ptr)
    (hws : w s.log .get_window_state = ws)
    (hr : w (s.log ++ [(.get_window_state, ws)])
      (.accesskit_android_adapter_find_focus s.g_adapter .build_initial_tree ws env host
        focusType) = r)
    (h1 : ws ≠ NULL) (h2 : s.g_adapter ≠ NULL) :
    nativeFindFocus w env cls adapter_ptr host focusType s =
      (r, { s with log := s.log ++ [(.get_window_state, ws),
        (.accesskit_android_adapter_find_focus s.g_adapter .build_initial_tree ws env host
          focusType, r)] }) := by
  subst hws hr
  simp [nativeFindFocus, call, h1, h2]

theorem createNodeInfo_unavailable (w : World) (env cls : Ptr) (adapter_ptr : jlong)
    (host : Ptr) (virtualViewId : jint) (s s1 : State) (hs1 : afterHostCache w env host s = s1)
    (h : w s1.log .get_window_state = NULL ∨ s.g_adapter = NULL) :
    nativeCreateAccessibilityNodeInfo w env cls adapter_ptr host virtualViewId s =
      (NULL, { s1 with log := s1.log
        ++ [(.get_window_state, w s1.log .get_window_state)] }) := by
  subst hs1
  unfold afterHostCache at *
  by_cases hc : s.g_host = NULL ∧ host ≠ NULL
  · rw [if_pos hc] at h ⊢
    simp [nativeCreateAccessibilityNodeInfo, call, hc, h]
  · rw [if_neg hc] at h ⊢
    simp [nativeCreateAccessibilityNodeInfo, call, hc, h]

theorem createNodeInfo_reached (w : World) (env cls : Ptr) (adapter_ptr : jlong)
    (host : Ptr) (virtualViewId : jint) (s s1 : State) (ws r : Ptr)
    (hs1 : afterHostCache w env host s = s1)
    (hws : w s1.log .get_window_state = ws)
    (hr : w (s1.log ++ [(.get_window_state, ws)])
      (.accesskit_android_adapter_create_accessibility_node_info s.g_adapter
        .build_initial_tree ws env host virtualViewId) = r)
    (h1 : ws ≠ NULL) (h2 : s.g_adapter ≠ NULL) :
    nativeCreateAccessibilityNodeInfo w env cls adapter_ptr host virtualViewId s =
      (r, { s1 with log := s1.log ++ [(.get_window_state, ws),
        (.accesskit_android_adapter_create_accessibility_node_info s.g_adapter
          .build_initial_tree ws env host virtualViewId, r)] }) := by
  subst hs1 hws hr
  unfold afterHostCache at *
  by_cases hc : s.g_host = NULL ∧ host ≠ NULL
  · rw [if_pos hc] at h1 ⊢
    simp [nativeCreateAccessibilityNodeInfo, call, hc, h1, h2]
  · rw [if_neg hc] at h1 ⊢
    simp [nativeCreateAccessibilityNodeInfo, call, hc, h1, h2]

theorem hover_unavailable (w : World) (env cls : Ptr) (adapter_ptr : jlong)
    (host : Ptr) (action : jint) (x y : jfloat) (s : State)
    (h : w s.log .get_window_state = NULL ∨ s.g_adapter = NULL) :
    nativeOnHoverEvent w env cls adapter_ptr host action x y s =
      (JNI_FALSE, { s with log := s.log ++ [(.get_window_state, w s.log .get_window_state)] }) := by
  simp [nativeOnHoverEvent, call, h]

theorem hover_reached (w : World) (env cls : Ptr) (adapter_ptr : jlong)
    (host : Ptr) (action : jint) (x y : jfloat) (s : State) (ws ev : Ptr)
    (hws : w s.log .get_window_state = ws)
    (hev : w (s.log ++ [(.get_window_state, ws)])
      (.accesskit_android_adapter_on_hover_event s.g_adapter .build_initial_tree ws action x y)
        = ev)
    (h1 : ws ≠ NULL) (h2 : s.g_adapter ≠ NULL) :
    nativeOnHoverEvent w env cls adapter_ptr host action x y s =
      (if ev ≠ NULL then JNI_TRUE else JNI_FALSE,
        { s with log := s.log ++ [(.get_window_state, ws),
          (.accesskit_android_adapter_on_hover_event s.g_adapter .build_initial_tree ws action
            x y, ev)]
          ++ (if ev ≠ NULL then [(Call.accesskit_android_queued_events_raise ev env host, 0)]
              else []) }) := by
  subst hws hev
  by_cases h3 : w (s.log ++ [(.get_window_state, w s.log .get_window_state)])
      (.accesskit_android_adapter_on_hover_event s.g_adapter .build_initial_tree
        (w s.log .get_window_state) action x y) = NULL <;>
    simp [nativeOnHoverEvent, call, callVoid, h1, h2, h3]

theorem perform_unavailable (w : World) (env cls : Ptr) (adapter_ptr : jlong)
    (host : Ptr) (virtualViewId action : jint) (arguments : Ptr) (s : State)
    (h : w s.log .get_action_handler_state = NULL ∨ s.g_adapter = NULL) :
    nativePerformAction w env cls adapter_ptr host virtualViewId action arguments s =
      (JNI_FALSE, { s with log := s.log
        ++ [(.get_action_handler_state, w s.log .get_action_handler_state)] }) := by
  simp [nativePerformAction, call, h]

theorem perform_no_action (w : World) (env cls : Ptr) (adapter_ptr : jlong)
    (host : Ptr) (virtualViewId action : jint) (arguments : Ptr) (s : State) (hs : Ptr)
    (hhs : w s.log .get_action_handler_state = hs)
    (h1 : hs ≠ NULL) (h2 : s.g_adapter ≠ NULL)
    (h3 : w (s.log ++ [(.get_action_handler_state, hs)])
      (.accesskit_android_platform_action_from_java env action arguments) = NULL) :
    nativePerformAction w env cls adapter_ptr host virtualViewId action arguments s =
      (JNI_FALSE, { s with log := s.log ++ [(.get_action_handler_state, hs),
        (.accesskit_android_platform_action_from_java env action arguments, NULL)] }) := by
  subst hhs
  simp [nativePerformAction, call, h1, h2, h3]

theorem perform_reached (w : World) (env cls : Ptr) (adapter_ptr : jlong)
    (host : Ptr) (virtualViewId action : jint) (arguments : Ptr) (s : State) (hs pa ev : Ptr)
    (hhs : w s.log .get_action_handler_state = hs)
    (hpa : w (s.log ++ [(.get_action_handler_state, hs)])
      (.accesskit_android_platform_action_from_java env action arguments) = pa)
    (hev : w (s.log ++ [(.get_action_handler_state, hs),
        (.accesskit_android_platform_action_from_java env action arguments, pa)])
      (.accesskit_android_adapter_perform_action s.g_adapter .do_action hs virtualViewId pa)
        = ev)
    (h1 : hs ≠ NULL) (h2 : s.g_adapter ≠ NULL) (h3 : pa ≠ NULL) :
    nativePerformAction w env cls adapter_ptr host virtualViewId action arguments s =
      (JNI_TRUE, { s with log := s.log ++ [(.get_action_handler_state, hs),
        (.accesskit_android_platform_action_from_java env action arguments, pa),
        (.accesskit_android_adapter_perform_action s.g_adapter .do_action hs virtualViewId pa,
          ev),
        (.accesskit_android_platform_action_free pa, 0)]
        ++ (if ev ≠ NULL then [(Call.accesskit_android_queued_events_raise ev env host, 0)]
            else []) }) := by
  subst hhs hpa hev
  by_cases h4 : w (s.log ++ [(.get_action_handler_state, w s.log .get_action_handler_state),
        (.accesskit_android_platform_action_from_java env action arguments,
          w (s.log ++ [(.get_action_handler_state, w s.log .get_action_handler_state)])
            (.accesskit_android_platform_action_from_java env action arguments))])
      (.accesskit_android_adapter_perform_action s.g_adapter .do_action
        (w s.log .get_action_handler_state) virtualViewId
        (w (s.log ++ [(.get_action_handler_state, w s.log .get_action_handler_state)])
            (.accesskit_android_platform_action_from_java env action arguments))) = NULL <;>
    simp [nativePerformAction, call, callVoid, h1, h2, h3, h4]

theorem update_skipped (w : World) (env cls : Ptr) (adapter_ptr : jlong) (host : Ptr)
    (s : State) (h : s.g_adapter = NULL ∨ host = NULL) :
    nativeUpdateAccessibility w env cls adapter_ptr host s = s := by
  simp [nativeUpdateAccessibility, h]

theorem update_reached (w : World) (env cls : Ptr) (adapter_ptr : jlong) (host : Ptr)
    (s : State) (ev : Ptr)
    (hev : w s.log (.accesskit_android_adapter_update_if_active s.g_adapter
      .pending_update_factory NULL) = ev)
    (h1 : s.g_adapter ≠ NULL) (h2 : host ≠ NULL) :
    nativeUpdateAccessibility w env cls adapter_ptr host s =
      { s with log := s.log ++ [(.accesskit_android_adapter_update_if_active s.g_adapter
          .pending_update_factory NULL, ev)]
        ++ (if ev ≠ NULL then [(Call.accesskit_android_queued_events_raise ev env host, 0)]
            else []) } := by
  subst hev
  by_cases h3 : w s.log (.accesskit_android_adapter_update_if_active s.g_adapter
      .pending_update_factory NULL) = NULL <;>
    simp [nativeUpdateAccessibility, call, callVoid, h1, h2, h3]

/-! ## Seeing the host context missing -/

theorem createNodeInfo_saw_null (w : World) (env cls : Ptr) (adapter_ptr : jlong)
    (host : Ptr) (virtualViewId : jint) (s : State)
    (hm : (Call.get_window_state, NULL) ∈ newEvents s
      (nativeCreateAccessibilityNodeInfo w env cls adapter_ptr host virtualViewId s).2) :
    w (afterHostCache w env host s).log .get_window_state = NULL := by
  by_contra h1
  by_cases h2 : s.g_adapter = NULL
  · rw [createNodeInfo_unavailable w env cls adapter_ptr host virtualViewId s _ rfl
      (Or.inr h2)] at hm
    revert hm h1
    unfold afterHostCache
    split <;> simp [newEvents] <;> intro h1 <;> exact h1.symm
  · rw [createNodeInfo_reached w env cls adapter_ptr host virtualViewId s _ _ _ rfl rfl rfl
      h1 h2] at hm
    revert hm h1
    unfold afterHostCache
    split <;> simp [newEvents] <;> intro h1 <;> exact h1.symm

theorem findFocus_saw_null (w : World) (env cls : Ptr) (adapter_ptr : jlong)
    (host : Ptr) (focusType : jint) (s : State)
    (hm : (Call.get_window_state, NULL) ∈ newEvents s
      (nativeFindFocus w env cls adapter_ptr host focusType s).2) :
    w s.log .get_window_state = NULL := by
  by_contra h1
  by_cases h2 : s.g_adapter = NULL
  · rw [findFocus_unavailable w env cls adapter_ptr host focusType s (Or.inr h2)] at hm
    simp [newEvents] at hm
    exact h1 hm.symm
  · rw [findFocus_reached w env cls adapter_ptr host focusType s _ _ rfl rfl h1 h2] at hm
    simp [newEvents] at hm
    exact h1 hm.symm

theorem hover_saw_null (w : World) (env cls : Ptr) (adapter_ptr : jlong)
    (host : Ptr) (action : jint) (x y : jfloat) (s : State)
    (hm : (Call.get_window_state, NULL) ∈ newEvents s
      (nativeOnHoverEvent w env cls adapter_ptr host action x y s).2) :
    w s.log .get_window_state = NULL := by
  by_contra h1
  by_cases h2 : s.g_adapter = NULL
  · rw [hover_unavailable w env cls adapter_ptr host action x y s (Or.inr h2)] at hm
    simp [newEvents] at hm
    exact h1 hm.symm
  · rw [hover_reached w env cls adapter_ptr host action x y s _ _ rfl rfl h1 h2] at hm
    simp [newEvents] at hm
    exact h1 hm.symm

theorem perform_saw_null (w : World) (env cls : Ptr) (adapter_ptr : jlong)
    (host : Ptr) (virtualViewId action : jint) (arguments : Ptr) (s : State)
    (hm : (Call.get_action_handler_state, NULL) ∈ newEvents s
      (nativePerformAction w env cls adapter_ptr host virtualViewId action arguments s).2) :
    w s.log .get_action_handler_state = NULL := by
  by_contra h1
  by_cases h2 : s.g_adapter = NULL
  · rw [perform_unavailable w env cls adapter_ptr host virtualViewId action arguments s
      (Or.inr h2)] at hm
    simp [newEvents] at hm
    exact h1 hm.symm
  · by_cases h3 : w (s.log ++ [(.get_action_handler_state, w s.log .get_action_handler_state)])
        (.accesskit_android_platform_action_from_java env action arguments) = NULL
    · rw [perform_no_action w env cls adapter_ptr host virtualViewId action arguments s _ rfl
        h1 h2 h3] at hm
      simp [newEvents] at hm
      exact h1 hm.symm
    · rw [perform_reached w env cls adapter_ptr host virtualViewId action arguments s _ _ _
        rfl rfl rfl h1 h2 h3] at hm
      simp [newEvents] at hm
      exact h1 hm.symm

/-! ## The claims -/

/-- C1: when `get_window_state()` returns `NULL` in the call,
`nativeCreateAccessibilityNodeInfo` and `nativeFindFocus` return `NULL` and
`nativeOnHoverEvent` returns `JNI_FALSE`; when `get_action_handler_state()`
returns `NULL` in the call, `nativePerformAction` returns `JNI_FALSE`.  In all
four cases the call invokes no `accesskit_android_adapter_*` function, converts
no platform action and raises no event batch, for every world, every state
(so every `g_adapter`) and all other arguments. -/
theorem absent_context_short_circuits (w : World) (env cls : Ptr) (adapter_ptr : jlong)
    (host : Ptr) (virtualViewId focusType action : jint) (arguments : Ptr) (x y : jfloat)
    (s : State) :
    ((Call.get_window_state, NULL) ∈ newEvents s
        (nativeCreateAccessibilityNodeInfo w env cls adapter_ptr host virtualViewId s).2 →
      (nativeCreateAccessibilityNodeInfo w env cls adapter_ptr host virtualViewId s).1 = NULL ∧
      ∀ c ∈ newCalls s
          (nativeCreateAccessibilityNodeInfo w env cls adapter_ptr host virtualViewId s).2,
        c.isAdapterFn = false ∧ c.isFromJava = false ∧ c.isRaise = false) ∧
    ((Call.get_window_state, NULL) ∈ newEvents s
        (nativeFindFocus w env cls adapter_ptr host focusType s).2 →
      (nativeFindFocus w env cls adapter_ptr host focusType s).1 = NULL ∧
      ∀ c ∈ newCalls s (nativeFindFocus w env cls adapter_ptr host focusType s).2,
        c.isAdapterFn = false ∧ c.isFromJava = false ∧ c.isRaise = false) ∧
    ((Call.get_window_state, NULL) ∈ newEvents s
        (nativeOnHoverEvent w env cls adapter_ptr host action x y s).2 →
      (nativeOnHoverEvent w env cls adapter_ptr host action x y s).1 = JNI_FALSE ∧
      ∀ c ∈ newCalls s (nativeOnHoverEvent w env cls adapter_ptr host action x y s).2,
        c.isAdapterFn = false ∧ c.isFromJava = false ∧ c.isRaise = false) ∧
    ((Call.get_action_handler_state, NULL) ∈ newEvents s
        (nativePerformAction w env cls adapter_ptr host virtualViewId action arguments s).2 →
      (nativePerformAction w env cls adapter_ptr host virtualViewId action arguments s).1
        = JNI_FALSE ∧
      ∀ c ∈ newCalls s
          (nativePerformAction w env cls adapter_ptr host virtualViewId action arguments s).2,
        c.isAdapterFn = false ∧ c.isFromJava = false ∧ c.isRaise = false) := by
  refine ⟨?_, ?_, ?_, ?_⟩
  · intro hm
    have h := createNodeInfo_saw_null w env cls adapter_ptr host virtualViewId s hm
    rw [createNodeInfo_unavailable w env cls adapter_ptr host virtualViewId s _ rfl (Or.inl h)]
    refine ⟨rfl, ?_⟩
    unfold afterHostCache
    split <;> simp [newCalls, newEvents, Call.isAdapterFn, Call.isFromJava, Call.isRaise]
  · intro hm
    have h := findFocus_saw_null w env cls adapter_ptr host focusType s hm
    rw [findFocus_unavailable w env cls adapter_ptr host focusType s (Or.inl h)]
    simp [newCalls, newEvents, Call.isAdapterFn, Call.isFromJava, Call.isRaise]
  · intro hm
    have h := hover_saw_null w env cls adapter_ptr host action x y s hm
    rw [hover_unavailable w env cls adapter_ptr host action x y s (Or.inl h)]
    simp [newCalls, newEvents, Call.isAdapterFn, Call.isFromJava, Call.isRaise]
  · intro hm
    have h := perform_saw_null w env cls adapter_ptr host virtualViewId action arguments s hm
    rw [perform_unavailable w env cls adapter_ptr host virtualViewId action arguments s
      (Or.inl h)]
    simp [newCalls, newEvents, Call.isAdapterFn, Call.isFromJava, Call.isRaise]

/-- C1, at an input: with no window state and no action handler state, and
with a live adapter, each of the four entry points sees its context missing,
reports "unavailable" and stays away from the adapter. -/
theorem absent_context_short_circuits_witness :
    ((Call.get_window_state, NULL) ∈ newEvents State.live
        (nativeCreateAccessibilityNodeInfo noContextWorld 1 2 3 4 5 State.live).2 ∧
      (nativeCreateAccessibilityNodeInfo noContextWorld 1 2 3 4 5 State.live).1 = NULL ∧
      ∀ c ∈ newCalls State.live
          (nativeCreateAccessibilityNodeInfo noContextWorld 1 2 3 4 5 State.live).2,
        c.isAdapterFn = false ∧ c.isFromJava = false ∧ c.isRaise = false) ∧
    ((Call.get_window_state, NULL) ∈ newEvents State.live
        (nativeFindFocus noContextWorld 1 2 3 4 6 State.live).2 ∧
      (nativeFindFocus noContextWorld 1 2 3 4 6 State.live).1 = NULL ∧
      ∀ c ∈ newCalls State.live (nativeFindFocus noContextWorld 1 2 3 4 6 State.live).2,
        c.isAdapterFn = false ∧ c.isFromJava = false ∧ c.isRaise = false) ∧
    ((Call.get_window_state, NULL) ∈ newEvents State.live
        (nativeOnHoverEvent noContextWorld 1 2 3 4 7 10 11 State.live).2 ∧
      (nativeOnHoverEvent noContextWorld 1 2 3 4 7 10 11 State.live).1 = JNI_FALSE ∧
      ∀ c ∈ newCalls State.live (nativeOnHoverEvent noContextWorld 1 2 3 4 7 10 11 State.live).2,
        c.isAdapterFn = false ∧ c.isFromJava = false ∧ c.isRaise = false) ∧
    ((Call.get_action_handler_state, NULL) ∈ newEvents State.live
        (nativePerformAction noContextWorld 1 2 3 4 5 7 12 State.live).2 ∧
      (nativePerformAction noContextWorld 1 2 3 4 5 7 12 State.live).1 = JNI_FALSE ∧
      ∀ c ∈ newCalls State.live (nativePerformAction noContextWorld 1 2 3 4 5 7 12 State.live).2,
        c.isAdapterFn = false ∧ c.isFromJava = false ∧ c.isRaise = false) :=
  ⟨⟨by decide,
      (absent_context_short_circuits noContextWorld 1 2 3 4 5 6 7 12 10 11 State.live).1
        (by decide)⟩,
    ⟨by decide,
      (absent_context_short_circuits noContextWorld 1 2 3 4 5 6 7 12 10 11 State.live).2.1
        (by decide)⟩,
    ⟨by decide,
      (absent_context_short_circuits noContextWorld 1 2 3 4 5 6 7 12 10 11 State.live).2.2.1
        (by decide)⟩,
    ⟨by decide,
      (absent_context_short_circuits noContextWorld 1 2 3 4 5 6 7 12 10 11 State.live).2.2.2
        (by decide)⟩⟩

/-- C2, refuted as stated: at program start, with no window state and a
non-null `host`, `nativeCreateAccessibilityNodeInfo` sees `get_window_state()`
return `NULL`, yet it has called `NewGlobalRef(env, host)` and `g_host` is no
longer what it was. -/
theorem missing_context_not_a_no_op :
    (Call.get_window_state, NULL) ∈ newEvents State.init
        (nativeCreateAccessibilityNodeInfo noContextWorld 1 2 3 4 5 State.init).2 ∧
    (nativeCreateAccessibilityNodeInfo noContextWorld 1 2 3 4 5 State.init).2.g_host
        ≠ State.init.g_host ∧
    Call.NewGlobalRef 1 4 ∈ newCalls State.init
        (nativeCreateAccessibilityNodeInfo noContextWorld 1 2 3 4 5 State.init).2 ∧
    (Call.NewGlobalRef 1 4).isJniEnvFn = true := by
  decide

/-- C2, amended: when the required host context is missing, `nativeFindFocus`,
`nativeOnHoverEvent` and `nativePerformAction` leave `g_adapter` and `g_host`
as they were and invoke no JNI environment function and no adapter function.
`nativeCreateAccessibilityNodeInfo` leaves `g_adapter` as it was and invokes no
adapter function; it leaves `g_host` as it was and invokes no JNI environment
function when `g_host` is already non-null or `host` is `NULL`; otherwise its
external calls are exactly `NewGlobalRef(env, host)`, whose result becomes
`g_host`, followed by `get_window_state()`. -/
theorem missing_context_frame (w : World) (env cls : Ptr) (adapter_ptr : jlong)
    (host : Ptr) (virtualViewId focusType action : jint) (arguments : Ptr) (x y : jfloat)
    (s : State) :
    ((Call.get_window_state, NULL) ∈ newEvents s
        (nativeCreateAccessibilityNodeInfo w env cls adapter_ptr host virtualViewId s).2 →
      (nativeCreateAccessibilityNodeInfo w env cls adapter_ptr host virtualViewId s).2.g_adapter
        = s.g_adapter ∧
      (∀ c ∈ newCalls s
          (nativeCreateAccessibilityNodeInfo w env cls adapter_ptr host virtualViewId s).2,
        c.isAdapterFn = false) ∧
      (s.g_host ≠ NULL ∨ host = NULL →
        (nativeCreateAccessibilityNodeInfo w env cls adapter_ptr host virtualViewId s).2.g_host
          = s.g_host ∧
        ∀ c ∈ newCalls s
            (nativeCreateAccessibilityNodeInfo w env cls adapter_ptr host virtualViewId s).2,
          c.isJniEnvFn = false) ∧
      (s.g_host = NULL ∧ host ≠ NULL →
        newEvents s
            (nativeCreateAccessibilityNodeInfo w env cls adapter_ptr host virtualViewId s).2
          = [(Call.NewGlobalRef env host,
                (nativeCreateAccessibilityNodeInfo w env cls adapter_ptr host virtualViewId
                  s).2.g_host),
             (Call.get_window_state, NULL)])) ∧
    ((Call.get_window_state, NULL) ∈ newEvents s
        (nativeFindFocus w env cls adapter_ptr host focusType s).2 →
      (nativeFindFocus w env cls adapter_ptr host focusType s).2.g_adapter = s.g_adapter ∧
      (nativeFindFocus w env cls adapter_ptr host focusType s).2.g_host = s.g_host ∧
      ∀ c ∈ newCalls s (nativeFindFocus w env cls adapter_ptr host focusType s).2,
        c.isJniEnvFn = false ∧ c.isAdapterFn = false) ∧
    ((Call.get_window_state, NULL) ∈ newEvents s
        (nativeOnHoverEvent w env cls adapter_ptr host action x y s).2 →
      (nativeOnHoverEvent w env cls adapter_ptr host action x y s).2.g_adapter = s.g_adapter ∧
      (nativeOnHoverEvent w env cls adapter_ptr host action x y s).2.g_host = s.g_host ∧
      ∀ c ∈ newCalls s (nativeOnHoverEvent w env cls adapter_ptr host action x y s).2,
        c.isJniEnvFn = false ∧ c.isAdapterFn = false) ∧
    ((Call.get_action_handler_state, NULL) ∈ newEvents s
        (nativePerformAction w env cls adapter_ptr host virtualViewId action arguments s).2 →
      (nativePerformAction w env cls adapter_ptr host virtualViewId action arguments s).2.g_adapter
        = s.g_adapter ∧
      (nativePerformAction w env cls adapter_ptr host virtualViewId action arguments s).2.g_host
        = s.g_host ∧
      ∀ c ∈ newCalls s
          (nativePerformAction w env cls adapter_ptr host virtualViewId action arguments s).2,
        c.isJniEnvFn = false ∧ c.isAdapterFn = false) := by
  refine ⟨?_, ?_, ?_, ?_⟩
  · intro hm
    have h := createNodeInfo_saw_null w env cls adapter_ptr host virtualViewId s hm
    rw [createNodeInfo_unavailable w env cls adapter_ptr host virtualViewId s _ rfl (Or.inl h)]
    revert h
    unfold afterHostCache
    by_cases hc : s.g_host = NULL ∧ host ≠ NULL
    · rw [if_pos hc]
      intro h
      have hc2 : ¬ (s.g_host ≠ NULL ∨ host = NULL) := by
        push_neg
        exact hc
      simp [newCalls, newEvents, Call.isAdapterFn, Call.isJniEnvFn, hc, hc2, h]
    · rw [if_neg hc]
      intro h
      simp [newCalls, newEvents, Call.isAdapterFn, Call.isJniEnvFn, hc, h]
  · intro hm
    have h := findFocus_saw_null w env cls adapter_ptr host focusType s hm
    rw [findFocus_unavailable w env cls adapter_ptr host focusType s (Or.inl h)]
    simp [newCalls, newEvents, Call.isAdapterFn, Call.isJniEnvFn]
  · intro hm
    have h := hover_saw_null w env cls adapter_ptr host action x y s hm
    rw [hover_unavailable w env cls adapter_ptr host action x y s (Or.inl h)]
    simp [newCalls, newEvents, Call.isAdapterFn, Call.isJniEnvFn]
  · intro hm
    have h := perform_saw_null w env cls adapter_ptr host virtualViewId action arguments s hm
    rw [perform_unavailable w env cls adapter_ptr host virtualViewId action arguments s
      (Or.inl h)]
    simp [newCalls, newEvents, Call.isAdapterFn, Call.isJniEnvFn]

/-- C2 amended, at inputs: at program start the host reference is cached even
though the window state is missing; with a host already cached, the four entry
points change neither global. -/
theorem missing_context_frame_witness :
    ((Call.get_window_state, NULL) ∈ newEvents State.init
        (nativeCreateAccessibilityNodeInfo noContextWorld 1 2 3 4 5 State.init).2 ∧
      (State.init.g_host = NULL ∧ (4 : Ptr) ≠ NULL) ∧
      newEvents State.init
          (nativeCreateAccessibilityNodeInfo noContextWorld 1 2 3 4 5 State.init).2
        = [(Call.NewGlobalRef 1 4,
              (nativeCreateAccessibilityNodeInfo noContextWorld 1 2 3 4 5 State.init).2.g_host),
           (Call.get_window_state, NULL)]) ∧
    ((Call.get_window_state, NULL) ∈ newEvents State.live
        (nativeCreateAccessibilityNodeInfo noContextWorld 1 2 3 4 5 State.live).2 ∧
      (State.live.g_host ≠ NULL ∨ (4 : Ptr) = NULL) ∧
      (nativeCreateAccessibilityNodeInfo noContextWorld 1 2 3 4 5 State.live).2.g_host
        = State.live.g_host ∧
      ∀ c ∈ newCalls State.live
          (nativeCreateAccessibilityNodeInfo noContextWorld 1 2 3 4 5 State.live).2,
        c.isJniEnvFn = false) ∧
    ((Call.get_window_state, NULL) ∈ newEvents State.live
        (nativeFindFocus noContextWorld 1 2 3 4 6 State.live).2 ∧
      (nativeFindFocus noContextWorld 1 2 3 4 6 State.live).2.g_adapter = State.live.g_adapter ∧
      (nativeFindFocus noContextWorld 1 2 3 4 6 State.live).2.g_host = State.live.g_host ∧
      ∀ c ∈ newCalls State.live (nativeFindFocus noContextWorld 1 2 3 4 6 State.live).2,
        c.isJniEnvFn = false ∧ c.isAdapterFn = false) ∧
    ((Call.get_window_state, NULL) ∈ newEvents State.live
        (nativeOnHoverEvent noContextWorld 1 2 3 4 7 10 11 State.live).2 ∧
      (nativeOnHoverEvent noContextWorld 1 2 3 4 7 10 11 State.live).2.g_adapter
        = State.live.g_adapter ∧
      (nativeOnHoverEvent noContextWorld 1 2 3 4 7 10 11 State.live).2.g_host
        = State.live.g_host ∧
      ∀ c ∈ newCalls State.live (nativeOnHoverEvent noContextWorld 1 2 3 4 7 10 11 State.live).2,
        c.isJniEnvFn = false ∧ c.isAdapterFn = false) ∧
    ((Call.get_action_handler_state, NULL) ∈ newEvents State.live
        (nativePerformAction noContextWorld 1 2 3 4 5 7 12 State.live).2 ∧
      (nativePerformAction noContextWorld 1 2 3 4 5 7 12 State.live).2.g_adapter
        = State.live.g_adapter ∧
      (nativePerformAction noContextWorld 1 2 3 4 5 7 12 State.live).2.g_host
        = State.live.g_host ∧
      ∀ c ∈ newCalls State.live (nativePerformAction noContextWorld 1 2 3 4 5 7 12 State.live).2,
        c.isJniEnvFn = false ∧ c.isAdapterFn = false) :=
  ⟨⟨by decide, by decide,
      ((missing_context_frame noContextWorld 1 2 3 4 5 6 7 12 10 11 State.init).1
        (by decide)).2.2.2 (by decide)⟩,
    ⟨by decide, by decide,
      ((missing_context_frame noContextWorld 1 2 3 4 5 6 7 12 10 11 State.live).1
        (by decide)).2.2.1 (by decide)⟩,
    ⟨by decide,
      (missing_context_frame noContextWorld 1 2 3 4 5 6 7 12 10 11 State.live).2.1 (by decide)⟩,
    ⟨by decide,
      (missing_context_frame noContextWorld 1 2 3 4 5 6 7 12 10 11 State.live).2.2.1
        (by decide)⟩,
    ⟨by decide,
      (missing_context_frame noContextWorld 1 2 3 4 5 6 7 12 10 11 State.live).2.2.2
        (by decide)⟩⟩

/-- C3: `nativeUpdateAccessibility` raises an event batch if and only if
`g_adapter` is non-null, `host` is non-null and
`accesskit_android_adapter_update_if_active(g_adapter, pending_update_factory, NULL)`
returns a non-null batch; that call is the only way it reaches the adapter, and
what it raises is the returned batch.  It never changes `g_adapter` or `g_host`.
The factory returns exactly `get_pending_update()` for every `userdata`. -/
theorem update_pull (w : World) (env cls : Ptr) (adapter_ptr : jlong) (host : Ptr)
    (s : State) :
    ((∃ c ∈ newCalls s (nativeUpdateAccessibility w env cls adapter_ptr host s),
        c.isRaise = true) ↔
      (s.g_adapter ≠ NULL ∧ host ≠ NULL ∧
        w s.log (.accesskit_android_adapter_update_if_active s.g_adapter
          .pending_update_factory NULL) ≠ NULL)) ∧
    (∀ c ∈ newCalls s (nativeUpdateAccessibility w env cls adapter_ptr host s),
      (c.isRaise = true →
        c = .accesskit_android_queued_events_raise
          (w s.log (.accesskit_android_adapter_update_if_active s.g_adapter
            .pending_update_factory NULL)) env host) ∧
      (c.isAdapterFn = true →
        c = .accesskit_android_adapter_update_if_active s.g_adapter
          .pending_update_factory NULL)) ∧
    (nativeUpdateAccessibility w env cls adapter_ptr host s).g_adapter = s.g_adapter ∧
    (nativeUpdateAccessibility w env cls adapter_ptr host s).g_host = s.g_host ∧
    (∀ (userdata : Ptr) (t : State),
      pending_update_factory w userdata t = call w .get_pending_update t) := by
  have hf : ∀ (userdata : Ptr) (t : State),
      pending_update_factory w userdata t = call w .get_pending_update t := fun _ _ => rfl
  by_cases h : s.g_adapter = NULL ∨ host = NULL
  · rw [update_skipped w env cls adapter_ptr host s h]
    refine ⟨?_, ?_, rfl, rfl, hf⟩
    · simp [newCalls, newEvents]
      intro h1 h2
      rcases h with h | h
      · exact absurd h h1
      · exact absurd h h2
    · simp [newCalls, newEvents]
  · push_neg at h
    rw [update_reached w env cls adapter_ptr host s _ rfl h.1 h.2]
    refine ⟨?_, ?_, rfl, rfl, hf⟩
    · by_cases h3 : w s.log (.accesskit_android_adapter_update_if_active s.g_adapter
          .pending_update_factory NULL) = NULL
      · simp [newCalls, newEvents, Call.isRaise, h3]
      · simp [newCalls, newEvents, Call.isRaise, h3, h.1, h.2]
    · by_cases h3 : w s.log (.accesskit_android_adapter_update_if_active s.g_adapter
          .pending_update_factory NULL) = NULL
      · simp [newCalls, newEvents, Call.isRaise, Call.isAdapterFn, h3]
      · simp [newCalls, newEvents, Call.isRaise, Call.isAdapterFn, h3]

/-- C4: whenever `nativeCreateAccessibilityNodeInfo`, `nativeFindFocus` or
`nativeOnHoverEvent` reaches the adapter, the callback it passes is
`build_initial_tree` and the userdata is the value `get_window_state()` returned
in that call; whenever `nativePerformAction` reaches
`accesskit_android_adapter_perform_action`, the callback is `do_action`, the
userdata is the value `get_action_handler_state()` returned in that call, and
the platform action is the one converted from the `action` and `arguments`
received; `env`, `host`, `virtualViewId`, `focusType`, `action`, `x` and `y`
are forwarded with the values the entry point received. -/
theorem context_passed_through (w : World) (env cls : Ptr) (adapter_ptr : jlong)
    (host : Ptr) (virtualViewId focusType action : jint) (arguments : Ptr) (x y : jfloat)
    (s : State) :
    (∀ c ∈ newCalls s
        (nativeCreateAccessibilityNodeInfo w env cls adapter_ptr host virtualViewId s).2,
      c.isAdapterFn = true →
        ∃ ws, (Call.get_window_state, ws) ∈ newEvents s
            (nativeCreateAccessibilityNodeInfo w env cls adapter_ptr host virtualViewId s).2 ∧
          c = .accesskit_android_adapter_create_accessibility_node_info s.g_adapter
            .build_initial_tree ws env host virtualViewId) ∧
    (∀ c ∈ newCalls s (nativeFindFocus w env cls adapter_ptr host focusType s).2,
      c.isAdapterFn = true →
        ∃ ws, (Call.get_window_state, ws) ∈ newEvents s
            (nativeFindFocus w env cls adapter_ptr host focusType s).2 ∧
          c = .accesskit_android_adapter_find_focus s.g_adapter
            .build_initial_tree ws env host focusType) ∧
    (∀ c ∈ newCalls s (nativeOnHoverEvent w env cls adapter_ptr host action x y s).2,
      c.isAdapterFn = true →
        ∃ ws, (Call.get_window_state, ws) ∈ newEvents s
            (nativeOnHoverEvent w env cls adapter_ptr host action x y s).2 ∧
          c = .accesskit_android_adapter_on_hover_event s.g_adapter
            .build_initial_tree ws action x y) ∧
    (∀ c ∈ newCalls s
        (nativePerformAction w env cls adapter_ptr host virtualViewId action arguments s).2,
      c.isAdapterFn = true →
        ∃ hs pa, (Call.get_action_handler_state, hs) ∈ newEvents s
            (nativePerformAction w env cls adapter_ptr host virtualViewId action arguments
              s).2 ∧
          (Call.accesskit_android_platform_action_from_java env action arguments, pa)
            ∈ newEvents s
              (nativePerformAction w env cls adapter_ptr host virtualViewId action arguments
                s).2 ∧
          c = .accesskit_android_adapter_perform_action s.g_adapter
            .do_action hs virtualViewId pa) := by
  refine ⟨?_, ?_, ?_, ?_⟩
  · by_cases h : w (afterHostCache w env host s).log .get_window_state = NULL ∨
        s.g_adapter = NULL
    · rw [createNodeInfo_unavailable w env cls adapter_ptr host virtualViewId s _ rfl h]
      unfold afterHostCache
      split <;> simp [newCalls, newEvents, Call.isAdapterFn]
    · push_neg at h
      rw [createNodeInfo_reached w env cls adapter_ptr host virtualViewId s _ _ _ rfl rfl rfl
        h.1 h.2]
      unfold afterHostCache
      split <;> simp [newCalls, newEvents, Call.isAdapterFn]
  · by_cases h : w s.log .get_window_state = NULL ∨ s.g_adapter = NULL
    · rw [findFocus_unavailable w env cls adapter_ptr host focusType s h]
      simp [newCalls, newEvents, Call.isAdapterFn]
    · push_neg at h
      rw [findFocus_reached w env cls adapter_ptr host focusType s _ _ rfl rfl h.1 h.2]
      simp [newCalls, newEvents, Call.isAdapterFn]
  · by_cases h : w s.log .get_window_state = NULL ∨ s.g_adapter = NULL
    · rw [hover_unavailable w env cls adapter_ptr host action x y s h]
      simp [newCalls, newEvents, Call.isAdapterFn]
    · push_neg at h
      rw [hover_reached w env cls adapter_ptr host action x y s _ _ rfl rfl h.1 h.2]
      split <;> simp [newCalls, newEvents, Call.isAdapterFn]
  · by_cases h : w s.log .get_action_handler_state = NULL ∨ s.g_adapter = NULL
    · rw [perform_unavailable w env cls adapter_ptr host virtualViewId action arguments s h]
      simp [newCalls, newEvents, Call.isAdapterFn]
    · push_neg at h
      by_cases h3 : w (s.log ++ [(.get_action_handler_state, w s.log .get_action_handler_state)])
          (.accesskit_android_platform_action_from_java env action arguments) = NULL
      · rw [perform_no_action w env cls adapter_ptr host virtualViewId action arguments s _ rfl
          h.1 h.2 h3]
        simp [newCalls, newEvents, Call.isAdapterFn]
      · rw [perform_reached w env cls adapter_ptr host virtualViewId action arguments s _ _ _
          rfl rfl rfl h.1 h.2 h3]
        split <;> simp [newCalls, newEvents, Call.isAdapterFn]

/-- C4, at an input: with a live adapter and host context `1`, each of the four
entry points reaches the adapter, and hands it the context it was given. -/
theorem context_passed_through_witness :
    (Call.accesskit_android_adapter_create_accessibility_node_info 9 .build_initial_tree
        1 1 4 5 ∈ newCalls State.live
          (nativeCreateAccessibilityNodeInfo liveWorld 1 2 3 4 5 State.live).2 ∧
      ∃ ws, (Call.get_window_state, ws) ∈ newEvents State.live
          (nativeCreateAccessibilityNodeInfo liveWorld 1 2 3 4 5 State.live).2 ∧
        Call.accesskit_android_adapter_create_accessibility_node_info 9 .build_initial_tree
            1 1 4 5
          = .accesskit_android_adapter_create_accessibility_node_info State.live.g_adapter
            .build_initial_tree ws 1 4 5) ∧
    (Call.accesskit_android_adapter_find_focus 9 .build_initial_tree 1 1 4 6
        ∈ newCalls State.live (nativeFindFocus liveWorld 1 2 3 4 6 State.live).2 ∧
      ∃ ws, (Call.get_window_state, ws) ∈ newEvents State.live
          (nativeFindFocus liveWorld 1 2 3 4 6 State.live).2 ∧
        Call.accesskit_android_adapter_find_focus 9 .build_initial_tree 1 1 4 6
          = .accesskit_android_adapter_find_focus State.live.g_adapter
            .build_initial_tree ws 1 4 6) ∧
    (Call.accesskit_android_adapter_on_hover_event 9 .build_initial_tree 1 7 10 11
        ∈ newCalls State.live (nativeOnHoverEvent liveWorld 1 2 3 4 7 10 11 State.live).2 ∧
      ∃ ws, (Call.get_window_state, ws) ∈ newEvents State.live
          (nativeOnHoverEvent liveWorld 1 2 3 4 7 10 11 State.live).2 ∧
        Call.accesskit_android_adapter_on_hover_event 9 .build_initial_tree 1 7 10 11
          = .accesskit_android_adapter_on_hover_event State.live.g_adapter
            .build_initial_tree ws 7 10 11) ∧
    (Call.accesskit_android_adapter_perform_action 9 .do_action 1 5 2
        ∈ newCalls State.live (nativePerformAction liveWorld 1 2 3 4 5 7 12 State.live).2 ∧
      ∃ hs pa, (Call.get_action_handler_state, hs) ∈ newEvents State.live
          (nativePerformAction liveWorld 1 2 3 4 5 7 12 State.live).2 ∧
        (Call.accesskit_android_platform_action_from_java 1 7 12, pa) ∈ newEvents State.live
          (nativePerformAction liveWorld 1 2 3 4 5 7 12 State.live).2 ∧
        Call.accesskit_android_adapter_perform_action 9 .do_action 1 5 2
          = .accesskit_android_adapter_perform_action State.live.g_adapter
            .do_action hs 5 pa) :=
  ⟨⟨by decide,
      (context_passed_through liveWorld 1 2 3 4 5 6 7 12 10 11 State.live).1 _
        (by decide) (by decide)⟩,
    ⟨by decide,
      (context_passed_through liveWorld 1 2 3 4 5 6 7 12 10 11 State.live).2.1 _
        (by decide) (by decide)⟩,
    ⟨by decide,
      (context_passed_through liveWorld 1 2 3 4 5 6 7 12 10 11 State.live).2.2.1 _
        (by decide) (by decide)⟩,
    ⟨by decide,
      (context_passed_through liveWorld 1 2 3 4 5 6 7 12 10 11 State.live).2.2.2 _
        (by decide) (by decide)⟩⟩

/-! ## Consuming event batches -/

theorem consumes_of_quiet (env host : Ptr) (s t : State) (l : List Event)
    (hl : t.log = s.log ++ l)
    (hq : ∀ e ∈ l, e.1.producesBatch = false ∧ e.1.isRaise = false)
    (ha : t.g_adapter = s.g_adapter) (hh : t.g_host = s.g_host) :
    ConsumesBatchOnce env host s t := by
  have hE : newEvents s t = l := newEvents_append s t l hl
  refine ⟨?_, ?_, ha, hh⟩
  · intro c r hm hp
    rw [hE] at hm
    have := (hq _ hm).1
    simp [hp] at this
  · intro c hm hr
    simp only [newCalls, hE, List.mem_map] at hm
    obtain ⟨e, he, rfl⟩ := hm
    have := (hq _ he).2
    simp [hr] at this

theorem consumes_of_shape (env host : Ptr) (s t : State) (front mid : List Event)
    (p : Call) (r : Ptr)
    (hl : t.log = s.log ++ (front ++ (p, r) :: (mid
      ++ (if r ≠ NULL then [(Call.accesskit_android_queued_events_raise r env host, 0)]
          else []))))
    (hq : ∀ e ∈ front ++ mid, e.1.producesBatch = false ∧ e.1.isRaise = false)
    (hp : p.producesBatch = true)
    (ha : t.g_adapter = s.g_adapter) (hh : t.g_host = s.g_host) :
    ConsumesBatchOnce env host s t := by
  have hE := newEvents_append s t _ hl
  have hpr : p.isRaise = false := by
    cases p <;> simp [Call.producesBatch] at hp <;> rfl
  have hfront : (front.map Prod.fst).countP Call.isRaise = 0 := by
    rw [List.countP_eq_zero]
    intro c hc
    simp only [List.mem_map] at hc
    obtain ⟨e, he, rfl⟩ := hc
    simp [(hq e (List.mem_append_left _ he)).2]
  have hmid : (mid.map Prod.fst).countP Call.isRaise = 0 := by
    rw [List.countP_eq_zero]
    intro c hc
    simp only [List.mem_map] at hc
    obtain ⟨e, he, rfl⟩ := hc
    simp [(hq e (List.mem_append_right _ he)).2]
  have hmem : ∀ c r0, (c, r0) ∈ newEvents s t → c.producesBatch = true → c = p ∧ r0 = r := by
    intro c r0 hm hc
    rw [hE] at hm
    simp only [List.mem_append, List.mem_cons] at hm
    rcases hm with hm | hm | hm | hm
    · have := (hq _ (List.mem_append_left _ hm)).1
      simp [hc] at this
    · simpa using hm
    · have := (hq _ (List.mem_append_right _ hm)).1
      simp [hc] at this
    · split at hm
      · simp at hm
        rw [hm.1] at hc
        simp [Call.producesBatch] at hc
      · simp at hm
  refine ⟨?_, ?_, ha, hh⟩
  · intro c r0 hm hc
    obtain ⟨rfl, rfl⟩ := hmem c r0 hm hc
    constructor
    · intro hr
      refine ⟨?_, front, _, hE, ?_⟩
      · have hrr : (Call.accesskit_android_queued_events_raise r0 env host).isRaise = true := rfl
        simp [newCalls, hE, List.countP_append, List.countP_cons, hfront, hmid, hpr, hr, hrr]
      · simp [hr]
    · intro hr
      simp [newCalls, hE, List.countP_append, List.countP_cons, hfront, hmid, hpr, hr]
  · intro c hm hr
    simp only [newCalls, hE, List.mem_map] at hm
    obtain ⟨e, he, rfl⟩ := hm
    simp only [List.mem_append, List.mem_cons] at he
    rcases he with he | he | he | he
    · have := (hq _ (List.mem_append_left _ he)).2
      simp [hr] at this
    · rw [he] at hr
      simp [hpr] at hr
    · have := (hq _ (List.mem_append_right _ he)).2
      simp [hr] at this
    · split at he
      · next hne =>
        simp at he
        refine ⟨p, r, hp, ?_, hne, by rw [he]⟩
        rw [hE]
        simp
      · simp at he

/-- C5: in each of `nativePerformAction`, `nativeUpdateAccessibility` and
`nativeOnHoverEvent`, a non-null batch returned by the adapter operation is
passed to `accesskit_android_queued_events_raise` exactly once in that call,
with the `env` and `host` of that call, after the adapter operation has
returned; a `NULL` batch is never raised; and no global is written, so the
batch is kept nowhere for a later call. -/
theorem batch_consumed_once (w : World) (env cls : Ptr) (adapter_ptr : jlong)
    (host : Ptr) (virtualViewId action : jint) (arguments : Ptr) (x y : jfloat) (s : State) :
    ConsumesBatchOnce env host s
      (nativePerformAction w env cls adapter_ptr host virtualViewId action arguments s).2 ∧
    ConsumesBatchOnce env host s (nativeUpdateAccessibility w env cls adapter_ptr host s) ∧
    ConsumesBatchOnce env host s
      (nativeOnHoverEvent w env cls adapter_ptr host action x y s).2 := by
  refine ⟨?_, ?_, ?_⟩
  · by_cases h : w s.log .get_action_handler_state = NULL ∨ s.g_adapter = NULL
    · rw [perform_unavailable w env cls adapter_ptr host virtualViewId action arguments s h]
      exact consumes_of_quiet env host s _ _ rfl
        (by simp [Call.producesBatch, Call.isRaise]) rfl rfl
    · push_neg at h
      obtain ⟨h1, h2⟩ := h
      generalize hhs : w s.log .get_action_handler_state = hs at h1
      by_cases h3 : w (s.log ++ [(.get_action_handler_state, hs)])
          (.accesskit_android_platform_action_from_java env action arguments) = NULL
      · rw [perform_no_action w env cls adapter_ptr host virtualViewId action arguments s hs hhs
          h1 h2 h3]
        exact consumes_of_quiet env host s _ _ rfl
          (by simp [Call.producesBatch, Call.isRaise]) rfl rfl
      · generalize hpa : w (s.log ++ [(.get_action_handler_state, hs)])
          (.accesskit_android_platform_action_from_java env action arguments) = pa at h3
        generalize hev : w (s.log ++ [(.get_action_handler_state, hs),
            (.accesskit_android_platform_action_from_java env action arguments, pa)])
          (.accesskit_android_adapter_perform_action s.g_adapter .do_action hs virtualViewId pa)
            = ev
        rw [perform_reached w env cls adapter_ptr host virtualViewId action arguments s hs pa ev
          hhs hpa hev h1 h2 h3]
        exact consumes_of_shape env host s _
          [(.get_action_handler_state, hs),
            (.accesskit_android_platform_action_from_java env action arguments, pa)]
          [(.accesskit_android_platform_action_free pa, 0)]
          (.accesskit_android_adapter_perform_action s.g_adapter .do_action hs virtualViewId pa)
          ev (by simp) (by simp [Call.producesBatch, Call.isRaise]) rfl rfl rfl
  · by_cases h : s.g_adapter = NULL ∨ host = NULL
    · rw [update_skipped w env cls adapter_ptr host s h]
      exact consumes_of_quiet env host s _ [] (by simp) (by simp) rfl rfl
    · push_neg at h
      generalize hev : w s.log (.accesskit_android_adapter_update_if_active s.g_adapter
        .pending_update_factory NULL) = ev
      rw [update_reached w env cls adapter_ptr host s ev hev h.1 h.2]
      exact consumes_of_shape env host s _ [] []
        (.accesskit_android_adapter_update_if_active s.g_adapter .pending_update_factory NULL)
        ev (by simp) (by simp) rfl rfl rfl
  · by_cases h : w s.log .get_window_state = NULL ∨ s.g_adapter = NULL
    · rw [hover_unavailable w env cls adapter_ptr host action x y s h]
      exact consumes_of_quiet env host s _ _ rfl
        (by simp [Call.producesBatch, Call.isRaise]) rfl rfl
    · push_neg at h
      obtain ⟨h1, h2⟩ := h
      generalize hws : w s.log .get_window_state = ws at h1
      generalize hev : w (s.log ++ [(.get_window_state, ws)])
        (.accesskit_android_adapter_on_hover_event s.g_adapter .build_initial_tree ws action
          x y) = ev
      rw [hover_reached w env cls adapter_ptr host action x y s ws ev hws hev h1 h2]
      exact consumes_of_shape env host s _ [(.get_window_state, ws)] []
        (.accesskit_android_adapter_on_hover_event s.g_adapter .build_initial_tree ws action
          x y) ev (by simp) (by simp [Call.producesBatch, Call.isRaise]) rfl rfl rfl

/-- C5, at an input: with a live adapter that returns the batch `3`,
`nativePerformAction` raises exactly once, the batch `3` with its own `env` and
`host`, after `accesskit_android_adapter_perform_action` has returned. -/
theorem batch_consumed_once_witness :
    (Call.accesskit_android_adapter_perform_action 9 .do_action 1 5 2, 3)
        ∈ newEvents State.live (nativePerformAction liveWorld 1 2 3 4 5 7 12 State.live).2 ∧
    (newCalls State.live
        (nativePerformAction liveWorld 1 2 3 4 5 7 12 State.live).2).countP Call.isRaise = 1 ∧
    ∃ before after,
      newEvents State.live (nativePerformAction liveWorld 1 2 3 4 5 7 12 State.live).2
        = before ++ (Call.accesskit_android_adapter_perform_action 9 .do_action 1 5 2, 3)
            :: after ∧
      (Call.accesskit_android_queued_events_raise 3 1 4, 0) ∈ after :=
  ⟨by decide,
    ((batch_consumed_once liveWorld 1 2 3 4 5 7 12 10 11 State.live).1.1 _ _
      (by decide) (by decide)).1 (by decide)⟩

/-- C6, the code at the failing input: the action handler state (`1`),
`g_adapter` (`9`) and the converted platform action (`2`) are all non-null and
`accesskit_android_adapter_perform_action` returns `NULL`; `nativePerformAction`
raises nothing, yet returns `JNI_TRUE`, not `JNI_FALSE`. -/
theorem perform_without_batch_returns_true :
    (Call.get_action_handler_state, 1) ∈ newEvents State.live
        (nativePerformAction noBatchWorld 1 2 3 4 5 7 12 State.live).2 ∧
    State.live.g_adapter ≠ NULL ∧
    (Call.accesskit_android_platform_action_from_java 1 7 12, 2) ∈ newEvents State.live
        (nativePerformAction noBatchWorld 1 2 3 4 5 7 12 State.live).2 ∧
    (Call.accesskit_android_adapter_perform_action 9 .do_action 1 5 2, NULL)
        ∈ newEvents State.live
          (nativePerformAction noBatchWorld 1 2 3 4 5 7 12 State.live).2 ∧
    (∀ c ∈ newCalls State.live
        (nativePerformAction noBatchWorld 1 2 3 4 5 7 12 State.live).2, c.isRaise = false) ∧
    (nativePerformAction noBatchWorld 1 2 3 4 5 7 12 State.live).1 = JNI_TRUE ∧
    (nativePerformAction noBatchWorld 1 2 3 4 5 7 12 State.live).1 ≠ JNI_FALSE := by
  decide

/-- C7: each entry point that takes an adapter handle ignores it: two calls
from the same state that differ only in that argument have the same result,
the same external calls and the same final state; and the adapter handed to
every `accesskit_android_adapter_*` call is the global `g_adapter`. -/
theorem adapter_argument_ignored (w : World) (env cls : Ptr) (a b : jlong)
    (host : Ptr) (virtualViewId focusType action : jint) (arguments : Ptr) (x y : jfloat)
    (s : State) :
    (nativeFreeAccessKitAdapter env cls a s = nativeFreeAccessKitAdapter env cls b s ∧
      ∀ c ∈ newCalls s (nativeFreeAccessKitAdapter env cls a s),
        ∀ p, c.adapterArg = some p → p = s.g_adapter) ∧
    (nativeCreateAccessibilityNodeInfo w env cls a host virtualViewId s
        = nativeCreateAccessibilityNodeInfo w env cls b host virtualViewId s ∧
      ∀ c ∈ newCalls s (nativeCreateAccessibilityNodeInfo w env cls a host virtualViewId s).2,
        ∀ p, c.adapterArg = some p → p = s.g_adapter) ∧
    (nativeFindFocus w env cls a host focusType s
        = nativeFindFocus w env cls b host focusType s ∧
      ∀ c ∈ newCalls s (nativeFindFocus w env cls a host focusType s).2,
        ∀ p, c.adapterArg = some p → p = s.g_adapter) ∧
    (nativePerformAction w env cls a host virtualViewId action arguments s
        = nativePerformAction w env cls b host virtualViewId action arguments s ∧
      ∀ c ∈ newCalls s
          (nativePerformAction w env cls a host virtualViewId action arguments s).2,
        ∀ p, c.adapterArg = some p → p = s.g_adapter) ∧
    (nativeUpdateAccessibility w env cls a host s
        = nativeUpdateAccessibility w env cls b host s ∧
      ∀ c ∈ newCalls s (nativeUpdateAccessibility w env cls a host s),
        ∀ p, c.adapterArg = some p → p = s.g_adapter) ∧
    (nativeOnHoverEvent w env cls a host action x y s
        = nativeOnHoverEvent w env cls b host action x y s ∧
      ∀ c ∈ newCalls s (nativeOnHoverEvent w env cls a host action x y s).2,
        ∀ p, c.adapterArg = some p → p = s.g_adapter) := by
  refine ⟨⟨rfl, ?_⟩, ⟨rfl, ?_⟩, ⟨rfl, ?_⟩, ⟨rfl, ?_⟩, ⟨rfl, ?_⟩, ⟨rfl, ?_⟩⟩
  · rw [free_outcome]
    by_cases h1 : s.g_host = NULL <;> by_cases h2 : s.g_adapter = NULL <;>
      simp [newCalls, newEvents, Call.adapterArg, h1, h2]
  · by_cases h : w (afterHostCache w env host s).log .get_window_state = NULL ∨
        s.g_adapter = NULL
    · rw [createNodeInfo_unavailable w env cls a host virtualViewId s _ rfl h]
      unfold afterHostCache
      split <;> simp [newCalls, newEvents, Call.adapterArg]
    · push_neg at h
      rw [createNodeInfo_reached w env cls a host virtualViewId s _ _ _ rfl rfl rfl h.1 h.2]
      unfold afterHostCache
      split <;> simp [newCalls, newEvents, Call.adapterArg]
  · by_cases h : w s.log .get_window_state = NULL ∨ s.g_adapter = NULL
    · rw [findFocus_unavailable w env cls a host focusType s h]
      simp [newCalls, newEvents, Call.adapterArg]
    · push_neg at h
      rw [findFocus_reached w env cls a host focusType s _ _ rfl rfl h.1 h.2]
      simp [newCalls, newEvents, Call.adapterArg]
  · by_cases h : w s.log .get_action_handler_state = NULL ∨ s.g_adapter = NULL
    · rw [perform_unavailable w env cls a host virtualViewId action arguments s h]
      simp [newCalls, newEvents, Call.adapterArg]
    · push_neg at h
      by_cases h3 : w (s.log ++ [(.get_action_handler_state, w s.log .get_action_handler_state)])
          (.accesskit_android_platform_action_from_java env action arguments) = NULL
      · rw [perform_no_action w env cls a host virtualViewId action arguments s _ rfl
          h.1 h.2 h3]
        simp [newCalls, newEvents, Call.adapterArg]
      · rw [perform_reached w env cls a host virtualViewId action arguments s _ _ _
          rfl rfl rfl h.1 h.2 h3]
        split <;> simp [newCalls, newEvents, Call.adapterArg]
  · by_cases h : s.g_adapter = NULL ∨ host = NULL
    · rw [update_skipped w env cls a host s h]
      simp [newCalls, newEvents]
    · push_neg at h
      rw [update_reached w env cls a host s _ rfl h.1 h.2]
      split <;> simp [newCalls, newEvents, Call.adapterArg]
  · by_cases h : w s.log .get_window_state = NULL ∨ s.g_adapter = NULL
    · rw [hover_unavailable w env cls a host action x y s h]
      simp [newCalls, newEvents, Call.adapterArg]
    · push_neg at h
      rw [hover_reached w env cls a host action x y s _ _ rfl rfl h.1 h.2]
      split <;> simp [newCalls, newEvents, Call.adapterArg]

/-- C10: `nativeOnHoverEvent` returns `JNI_TRUE` if and only if
`get_window_state()` is non-null, `g_adapter` is non-null and
`accesskit_android_adapter_on_hover_event` returns a non-null batch; it returns
`JNI_TRUE` exactly in the calls in which it raises a batch, and `JNI_FALSE` in
every other call. -/
theorem hover_result_reports_events (w : World) (env cls : Ptr) (adapter_ptr : jlong)
    (host : Ptr) (action : jint) (x y : jfloat) (s : State) :
    ((nativeOnHoverEvent w env cls adapter_ptr host action x y s).1 = JNI_TRUE ↔
      (w s.log .get_window_state ≠ NULL ∧ s.g_adapter ≠ NULL ∧
        w (s.log ++ [(.get_window_state, w s.log .get_window_state)])
          (.accesskit_android_adapter_on_hover_event s.g_adapter .build_initial_tree
            (w s.log .get_window_state) action x y) ≠ NULL)) ∧
    ((nativeOnHoverEvent w env cls adapter_ptr host action x y s).1 = JNI_TRUE ↔
      ∃ c ∈ newCalls s (nativeOnHoverEvent w env cls adapter_ptr host action x y s).2,
        c.isRaise = true) ∧
    ((nativeOnHoverEvent w env cls adapter_ptr host action x y s).1 ≠ JNI_TRUE →
      (nativeOnHoverEvent w env cls adapter_ptr host action x y s).1 = JNI_FALSE) := by
  by_cases h : w s.log .get_window_state = NULL ∨ s.g_adapter = NULL
  · rw [hover_unavailable w env cls adapter_ptr host action x y s h]
    refine ⟨?_, ?_, fun _ => rfl⟩
    · simp
      intro h1 h2
      rcases h with h | h
      · exact absurd h h1
      · exact absurd h h2
    · simp [newCalls, newEvents, Call.isRaise]
  · push_neg at h
    rw [hover_reached w env cls adapter_ptr host action x y s _ _ rfl rfl h.1 h.2]
    by_cases h3 : w (s.log ++ [(.get_window_state, w s.log .get_window_state)])
        (.accesskit_android_adapter_on_hover_event s.g_adapter .build_initial_tree
          (w s.log .get_window_state) action x y) = NULL
    · simp [newCalls, newEvents, Call.isRaise, h3]
    · simp [newCalls, newEvents, Call.isRaise, h3, h.1, h.2]

/-! ## The freed state -/

theorem step_inert (w : World) (op : Op) (s : State) (h0 : s.g_adapter = NULL)
    (hop : op.isCreateAdapter = false) :
    (step w op s).1.negative = true ∧ (step w op s).2.g_adapter = NULL ∧
      ∃ l, (step w op s).2.log = s.log ++ l ∧
        ∀ e ∈ l, e.1.isAdapterFn = false ∧ e.1.isRaise = false := by
  cases op with
  | createAccessKitAdapter env cls => simp [Op.isCreateAdapter] at hop
  | freeAccessKitAdapter env cls adapter =>
      simp only [step]
      rw [free_outcome]
      refine ⟨rfl, rfl, _, by simp only [List.append_assoc]; rfl, ?_⟩
      by_cases h1 : s.g_host = NULL <;> simp [h0, h1, Call.isAdapterFn, Call.isRaise]
  | createAccessibilityNodeInfo env cls adapter_ptr host virtualViewId =>
      simp only [step]
      rw [createNodeInfo_unavailable w env cls adapter_ptr host virtualViewId s _ rfl
        (Or.inr h0)]
      unfold afterHostCache
      by_cases hc : s.g_host = NULL ∧ host ≠ NULL
      · rw [if_pos hc]
        refine ⟨rfl, h0, _, by simp only [List.append_assoc]; rfl, ?_⟩
        simp [Call.isAdapterFn, Call.isRaise]
      · rw [if_neg hc]
        refine ⟨rfl, h0, _, rfl, ?_⟩
        simp [Call.isAdapterFn, Call.isRaise]
  | findFocus env cls adapter_ptr host focusType =>
      simp only [step]
      rw [findFocus_unavailable w env cls adapter_ptr host focusType s (Or.inr h0)]
      refine ⟨rfl, h0, _, rfl, ?_⟩
      simp [Call.isAdapterFn, Call.isRaise]
  | performAction env cls adapter_ptr host virtualViewId action arguments =>
      simp only [step]
      rw [perform_unavailable w env cls adapter_ptr host virtualViewId action arguments s
        (Or.inr h0)]
      refine ⟨rfl, h0, _, rfl, ?_⟩
      simp [Call.isAdapterFn, Call.isRaise]
  | updateAccessibility env cls adapter_ptr host =>
      simp only [step]
      rw [update_skipped w env cls adapter_ptr host s (Or.inl h0)]
      exact ⟨rfl, h0, [], by simp, by simp⟩
  | onHoverEvent env cls adapter_ptr host action x y =>
      simp only [step]
      rw [hover_unavailable w env cls adapter_ptr host action x y s (Or.inr h0)]
      refine ⟨rfl, h0, _, rfl, ?_⟩
      simp [Call.isAdapterFn, Call.isRaise]

theorem run_inert (w : World) (ops : List Op) :
    ∀ s : State, s.g_adapter = NULL → (∀ op ∈ ops, op.isCreateAdapter = false) →
      (∀ r ∈ (run w ops s).1, r.negative = true) ∧ (run w ops s).2.g_adapter = NULL ∧
        ∃ l, (run w ops s).2.log = s.log ++ l ∧
          ∀ e ∈ l, e.1.isAdapterFn = false ∧ e.1.isRaise = false := by
  induction ops with
  | nil =>
      intro s h0 _
      exact ⟨by simp [run], h0, [], by simp [run], by simp⟩
  | cons op ops ih =>
      intro s h0 hops
      obtain ⟨hneg, hg, l1, hl1, hq1⟩ :=
        step_inert w op s h0 (hops op (List.mem_cons_self _ _))
      obtain ⟨hnegs, hg2, l2, hl2, hq2⟩ :=
        ih (step w op s).2 hg (fun o ho => hops o (List.mem_cons_of_mem _ ho))
      refine ⟨?_, hg2, l1 ++ l2, ?_, ?_⟩
      · intro r hr
        simp only [run, List.mem_cons] at hr
        rcases hr with hr | hr
        · rw [hr]
          exact hneg
        · exact hnegs r hr
      · simp only [run]
        rw [hl2, hl1, List.append_assoc]
      · intro e he
        rcases List.mem_append.mp he with he | he
        · exact hq1 e he
        · exact hq2 e he

/-- C9: after `nativeFreeAccessKitAdapter`, `g_adapter` and `g_host` are both
`NULL`, from every starting state.  From that state, through any sequence of
entry points without `nativeCreateAccessKitAdapter`, every result is negative
(`NULL` from `nativeCreateAccessibilityNodeInfo` and `nativeFindFocus`,
`JNI_FALSE` from `nativePerformAction` and `nativeOnHoverEvent`), nothing is
raised and no `accesskit_android_adapter_*` function is invoked.  A second free
right after the first changes nothing and makes no external call.  Within one
free, `accesskit_android_adapter_free` is called at most once, and only on the
non-null `g_adapter`. -/
theorem freed_state_inert (w : World) (env cls : Ptr) (adapter : jlong) (s : State) :
    (nativeFreeAccessKitAdapter env cls adapter s).g_adapter = NULL ∧
    (nativeFreeAccessKitAdapter env cls adapter s).g_host = NULL ∧
    (∀ ops : List Op, (∀ op ∈ ops, op.isCreateAdapter = false) →
      (∀ r ∈ (run w ops (nativeFreeAccessKitAdapter env cls adapter s)).1,
        r.negative = true) ∧
      (∀ c ∈ newCalls (nativeFreeAccessKitAdapter env cls adapter s)
          (run w ops (nativeFreeAccessKitAdapter env cls adapter s)).2,
        c.isAdapterFn = false ∧ c.isRaise = false)) ∧
    (∀ (env2 cls2 : Ptr) (adapter2 : jlong),
      nativeFreeAccessKitAdapter env2 cls2 adapter2
          (nativeFreeAccessKitAdapter env cls adapter s)
        = nativeFreeAccessKitAdapter env cls adapter s) ∧
    (newCalls s (nativeFreeAccessKitAdapter env cls adapter s)).countP Call.isAdapterFree ≤ 1 ∧
    (∀ p, Call.accesskit_android_adapter_free p
        ∈ newCalls s (nativeFreeAccessKitAdapter env cls adapter s) →
      p = s.g_adapter ∧ s.g_adapter ≠ NULL) := by
  have hA : (nativeFreeAccessKitAdapter env cls adapter s).g_adapter = NULL := by
    rw [free_outcome]
  have hH : (nativeFreeAccessKitAdapter env cls adapter s).g_host = NULL := by
    rw [free_outcome]
  refine ⟨hA, hH, ?_, ?_, ?_, ?_⟩
  · intro ops hops
    obtain ⟨hneg, _, l, hl, hq⟩ := run_inert w ops _ hA hops
    refine ⟨hneg, ?_⟩
    intro c hc
    simp only [newCalls, newEvents_append _ _ l hl, List.mem_map] at hc
    obtain ⟨e, he, rfl⟩ := hc
    exact hq e he
  · intro env2 cls2 adapter2
    rw [free_outcome env2 cls2 adapter2, hA, hH]
    rw [free_outcome env cls adapter s]
    simp
  · rw [free_outcome]
    by_cases h1 : s.g_host = NULL <;> by_cases h2 : s.g_adapter = NULL <;>
      simp [newCalls, newEvents, Call.isAdapterFree, h1, h2]
  · rw [free_outcome]
    by_cases h1 : s.g_host = NULL <;> by_cases h2 : s.g_adapter = NULL <;>
      simp [newCalls, newEvents, h1, h2]

/-- C9, at an input: after freeing a live adapter, one call of each other entry
point gives `NULL`, `NULL`, `JNI_FALSE`, nothing, `JNI_FALSE`, and the adapter
is never reached although every external function would answer non-null. -/
theorem freed_state_inert_witness :
    (∀ op ∈ sampleOps, op.isCreateAdapter = false) ∧
    (run liveWorld sampleOps (nativeFreeAccessKitAdapter 1 2 3 State.live)).1
      = [.object NULL, .object NULL, .boolean JNI_FALSE, .void, .boolean JNI_FALSE] ∧
    newCalls State.live (nativeFreeAccessKitAdapter 1 2 3 State.live)
      = [.DeleteGlobalRef 1 8, .accesskit_android_adapter_free 9] ∧
    ((∀ r ∈ (run liveWorld sampleOps (nativeFreeAccessKitAdapter 1 2 3 State.live)).1,
        r.negative = true) ∧
      (∀ c ∈ newCalls (nativeFreeAccessKitAdapter 1 2 3 State.live)
          (run liveWorld sampleOps (nativeFreeAccessKitAdapter 1 2 3 State.live)).2,
        c.isAdapterFn = false ∧ c.isRaise = false)) :=
  ⟨by decide, by decide, by decide,
    (freed_state_inert liveWorld 1 2 3 State.live).2.2.1 sampleOps (by decide)⟩

/-- C7, at an input: called with the handle `3` while `g_adapter` is `9`,
`nativeFindFocus` gives the adapter the handle `9`. -/
theorem adapter_argument_ignored_witness :
    Call.accesskit_android_adapter_find_focus 9 .build_initial_tree 1 1 4 6
      ∈ newCalls State.live (nativeFindFocus liveWorld 1 2 3 4 6 State.live).2 ∧
    (Call.accesskit_android_adapter_find_focus 9 .build_initial_tree 1 1 4 6).adapterArg
      = some 9 ∧
    (9 : Ptr) = State.live.g_adapter :=
  ⟨by decide, by decide,
    (adapter_argument_ignored liveWorld 1 2 3 77 4 5 6 7 12 10 11 State.live).2.2.1.2
      (Call.accesskit_android_adapter_find_focus 9 .build_initial_tree 1 1 4 6)
      (by decide) 9 (by decide)⟩

end AndroidJni

/-! # Theorems about the tree store -/

namespace TreeStore

/-- The model accepts well-formed updates and rejects malformed ones: on the
scenario tree, removing `a` while the root still lists it is rejected, removing
it together with an updated root is accepted, adding an orphan is rejected, and
adding a node under an updated parent is accepted. -/
theorem apply_update_scenarios :
    scenarioTree.valid = true ∧
    (apply_update scenarioTree (.incremental [] [1] none)).2 = .error .InvalidTree ∧
    (apply_update scenarioTree (.incremental
        [{ id := 0, role := 0, label := "root", disabled := false, children := [2] }] [1]
        (some 2))).2 = .ok [.removed 1, .changed 0, .focusMoved 2] ∧
    (apply_update scenarioTree (.incremental
        [{ id := 3, role := 0, label := "x", disabled := false, children := [] }] []
        none)).2 = .error .InvalidTree ∧
    (apply_update scenarioTree (.incremental
        [{ id := 3, role := 0, label := "x", disabled := false, children := [] },
         { id := 2, role := 1, label := "Cancel", disabled := false, children := [3] }] []
        none)).2 = .ok [.added 3, .changed 2] ∧
    (apply_update scenarioTree (.full [] 0)).2 = .error .InvalidTree :=
  ⟨rfl, rfl, rfl, rfl, rfl, rfl⟩

/-- C8: `apply_update` is atomic.  For every tree and every update, if applying
the update fails, the failure is `InvalidTree`, the store after the call is the
store before it, and `get` on any identifier returns the same result after the
call as before it. -/
theorem apply_update_atomic (t : Tree) (u : TreeUpdate) (e : Error)
    (h : (apply_update t u).2 = .error e) :
    e = .InvalidTree ∧ (apply_update t u).1 = t ∧
      ∀ id, (apply_update t u).1.get id = t.get id := by
  cases u with
  | full nodes root =>
      simp only [apply_update] at h ⊢
      split at h
      · simp at h
      · rename_i hv
        simp only [hv]
        simp at h
        exact ⟨h.symm, rfl, fun _ => rfl⟩
  | incremental changed removed focus =>
      simp only [apply_update] at h ⊢
      split at h
      · rename_i hr
        simp only [hr]
        simp at h
        exact ⟨h.symm, rfl, fun _ => rfl⟩
      · rename_i hr
        simp only [hr]
        split at h
        · simp at h
        · rename_i hv
          simp only [hv]
          simp at h
          exact ⟨h.symm, rfl, fun _ => rfl⟩

/-- C8, at an input: removing node `a` of the scenario tree while the root
still lists it as a child fails, and every lookup answers as before. -/
theorem apply_update_atomic_witness :
    (apply_update scenarioTree (.incremental [] [1] none)).2 = .error .InvalidTree ∧
    (Error.InvalidTree = .InvalidTree ∧
      (apply_update scenarioTree (.incremental [] [1] none)).1 = scenarioTree ∧
      ∀ id, (apply_update scenarioTree (.incremental [] [1] none)).1.get id
        = scenarioTree.get id) :=
  ⟨rfl, apply_update_atomic scenarioTree (.incremental [] [1] none) .InvalidTree rfl⟩

end TreeStore
